import Mathlib

/-!
Shallow embedding of `src/lib/logic/orbPhysics.ts` (the orb/particle physics
engine of the image-compressor repository).  JavaScript numbers are modelled as
real numbers; `Math.random()` draws are modelled as explicit oracle streams of
reals in `[0,1)`; DOM elements are modelled as records holding their last
written transform.  Fields keep the source's names where Lean allows it.
-/

namespace OrbPhysics

noncomputable section

/-- A `{ MIN, MAX }` range from the configuration object. -/
structure MinMax where
  MIN : ℝ
  MAX : ℝ

/-- The `COLORS` block of `OrbConfig`. -/
structure ColorsConfig where
  HUE_RANGE : ℝ
  CHROMA : ℝ
  LIGHTNESS : ℝ
  HUE_OFFSET : MinMax

/-- The `PHYSICS` block of `OrbConfig`. -/
structure PhysicsConfig where
  FRICTION : ℝ
  ACCELERATION : ℝ
  MAX_VELOCITY : ℝ
  BOUNDARY_FORCE : ℝ
  WANDER_JITTER : ℝ
  REPULSION_STRENGTH : ℝ
  REPULSION_RADIUS_FACTOR : ℝ
  GRAVITY_STRENGTH : ℝ

/-- `OrbConfig` from the source.  `ORB_COUNT` is an integer count. -/
structure OrbConfig where
  ORB_COUNT : ℕ
  SIZE : MinMax
  OPACITY : MinMax
  COLORS : ColorsConfig
  PHYSICS : PhysicsConfig

/-- `DEFAULT_CONFIG` from the source. -/
def DEFAULT_CONFIG : OrbConfig :=
  { ORB_COUNT := 6
    SIZE := ⟨200, 500⟩
    OPACITY := ⟨0.6, 0.9⟩
    COLORS := { HUE_RANGE := 360, CHROMA := 0.18, LIGHTNESS := 0.75, HUE_OFFSET := ⟨30, 90⟩ }
    PHYSICS :=
      { FRICTION := 0.98
        ACCELERATION := 0.015
        MAX_VELOCITY := 0.8
        BOUNDARY_FORCE := 0.03
        WANDER_JITTER := 0.08
        REPULSION_STRENGTH := 0.5
        REPULSION_RADIUS_FACTOR := 0.5
        GRAVITY_STRENGTH := 1.5 } }

/-- `OrbState` from the source. -/
structure OrbState where
  x : ℝ
  y : ℝ
  vx : ℝ
  vy : ℝ
  size : ℝ
  wanderTheta : ℝ

/-- The numeric parameters of the gradient string produced by
`randomGradient` (the CSS string formatting itself carries no information
beyond these three numbers). -/
structure Gradient where
  angle : ℝ
  h1 : ℝ
  h2 : ℝ

/-- `OrbVisual` from the source, with the gradient string abstracted to its
numeric parameters. -/
structure OrbVisual where
  size : ℝ
  gradient : Gradient
  opacity : ℝ

/-- The mutable fields of the `OrbSystem` class. -/
structure OrbSystem where
  width : ℝ
  height : ℝ
  states : List OrbState
  orbs : List OrbVisual
  config : OrbConfig
  time : ℝ

/-- The `OrbSystem` constructor: `width = height = 0`, empty lists, `time = 0`. -/
def OrbSystem.create (config : OrbConfig) : OrbSystem :=
  { width := 0, height := 0, states := [], orbs := [], config := config, time := 0 }

/-- A sparse override object for `setConfig` (`Partial<OrbConfig>`): each
top-level field is either present or absent. -/
structure OrbConfigPatch where
  ORB_COUNT : Option ℕ
  SIZE : Option MinMax
  OPACITY : Option MinMax
  COLORS : Option ColorsConfig
  PHYSICS : Option PhysicsConfig

/-- `setConfig`: the spread `{ ...this.config, ...newConfig }`, i.e. a
top-level shallow merge. -/
def setConfig (sys : OrbSystem) (p : OrbConfigPatch) : OrbSystem :=
  { sys with
    config :=
      { ORB_COUNT := p.ORB_COUNT.getD sys.config.ORB_COUNT
        SIZE := p.SIZE.getD sys.config.SIZE
        OPACITY := p.OPACITY.getD sys.config.OPACITY
        COLORS := p.COLORS.getD sys.config.COLORS
        PHYSICS := p.PHYSICS.getD sys.config.PHYSICS } }

/-- `resize(w, h)` from the source. -/
def resize (sys : OrbSystem) (w h : ℝ) : OrbSystem :=
  { sys with width := w, height := h }

/-- `rand(min, max) = Math.random() * (max - min) + min`, with the
`Math.random()` draw `u ∈ [0,1)` passed explicitly. -/
def rand (mn mx u : ℝ) : ℝ := u * (mx - mn) + mn

/-- Floored remainder; agrees with the JavaScript `%` operator on the
nonnegative operands produced by `randomGradient`. -/
def jsMod (a b : ℝ) : ℝ := a - b * (⌊a / b⌋ : ℤ)

/-- `randomGradient`, abstracted to the three numbers that parameterise the
produced gradient string; `u1 u2 u3` are the three `Math.random()` draws. -/
def randomGradient (cfg : OrbConfig) (u1 u2 u3 : ℝ) : Gradient :=
  { angle := rand 0 360 u1
    h1 := rand 0 cfg.COLORS.HUE_RANGE u2
    h2 := jsMod (rand 0 cfg.COLORS.HUE_RANGE u2 +
        rand cfg.COLORS.HUE_OFFSET.MIN cfg.COLORS.HUE_OFFSET.MAX u3) 360 }

/-- One iteration of the `initOrbs` loop: builds the state and the visual for
particle `i` from the oracle stream `u` (ten `Math.random()` draws per
particle, consumed in source order: size, x, y, vx, vy, wanderTheta, gradient
angle, gradient h1, gradient hue offset, opacity). -/
def initOrb (cfg : OrbConfig) (w h : ℝ) (u : ℕ → ℝ) (i : ℕ) : OrbState × OrbVisual :=
  let size := rand cfg.SIZE.MIN cfg.SIZE.MAX (u (10 * i))
  let x := rand (-50) (w - size + 50) (u (10 * i + 1))
  let y := rand (-50) (h - size + 50) (u (10 * i + 2))
  ( { x := x, y := y
      vx := rand (-1) 1 (u (10 * i + 3))
      vy := rand (-1) 1 (u (10 * i + 4))
      size := size
      wanderTheta := rand 0 (2 * Real.pi) (u (10 * i + 5)) },
    { size := size
      gradient := randomGradient cfg (u (10 * i + 6)) (u (10 * i + 7)) (u (10 * i + 8))
      opacity := rand cfg.OPACITY.MIN cfg.OPACITY.MAX (u (10 * i + 9)) } )

/-- `initOrbs`: no-op when width or height is falsy (zero); otherwise rebuilds
both lists wholesale from `ORB_COUNT` fresh particles. -/
def initOrbs (sys : OrbSystem) (u : ℕ → ℝ) : OrbSystem :=
  if sys.width = 0 ∨ sys.height = 0 then sys
  else
    let pairs := (List.range sys.config.ORB_COUNT).map (initOrb sys.config sys.width sys.height u)
    { sys with states := pairs.map Prod.fst, orbs := pairs.map Prod.snd }

/-- `List.map` with the element index supplied to the function; models the
source's indexed `for` loops and `forEach` over `this.states`. -/
def mapWithIndex (f : ℕ → α → β) : ℕ → List α → List β
  | _, [] => []
  | i, a :: as => f i a :: mapWithIndex f (i + 1) as

/-- JavaScript `x || d` on numbers: the fallback `d` replaces a falsy
(zero) value. -/
def orFalsy (x d : ℝ) : ℝ := if x = 0 then d else x

/-- `Math.atan2(y, x)`, modelled by the complex argument. -/
def atan2 (y x : ℝ) : ℝ := Complex.arg ⟨x, y⟩

/-- Closed form of the source's angle-normalisation loops
`while (diff < -PI) diff += 2*PI; while (diff > PI) diff -= 2*PI`:
the first loop adds the least number of full turns reaching `≥ -π`, the
second subtracts the least number of full turns reaching `≤ π`. -/
def wrapAngle (d : ℝ) : ℝ :=
  if d < -Real.pi then d + 2 * Real.pi * (⌈(-Real.pi - d) / (2 * Real.pi)⌉ : ℤ)
  else if d > Real.pi then d - 2 * Real.pi * (⌈(d - Real.pi) / (2 * Real.pi)⌉ : ℤ)
  else d

/-- Center x-coordinate of a particle: `s.x + s.size / 2`. -/
def cx (s : OrbState) : ℝ := s.x + s.size / 2

/-- Center y-coordinate of a particle: `s.y + s.size / 2`. -/
def cy (s : OrbState) : ℝ := s.y + s.size / 2

/-- `distSq = dx*dx + dy*dy` between the two centers. -/
def distSqP (s1 s2 : OrbState) : ℝ := (cx s1 - cx s2) ^ 2 + (cy s1 - cy s2) ^ 2

/-- `dist = Math.sqrt(distSq)` between the two centers. -/
def pairDist (s1 s2 : OrbState) : ℝ := Real.sqrt (distSqP s1 s2)

/-- `interactDist = (r1 + r2) * 1.3` from the source (the hard-coded
surface-tension factor; the configured `REPULSION_RADIUS_FACTOR` is not
read here). -/
def interactDist (s1 s2 : OrbState) : ℝ := (s1.size / 2 + s2.size / 2) * 1.3

/-- The scalar contact force of the source, as a function of the effective
repulsion strength `R`, the radii and the center distance `d`: exponential
repulsion when overlapping (`d < r1 + r2`), sinusoidal suction in the
surface-tension zone otherwise. -/
def contactForce (R r1 r2 d : ℝ) : ℝ :=
  let touchDist := r1 + r2
  if d < touchDist then
    R * Real.exp ((touchDist - d) / touchDist * 4)
  else
    -0.8 * Real.sin ((d - touchDist) / ((r1 + r2) * 1.3 - touchDist) * Real.pi)

/-- The gravity part of the pairwise loop: both velocities receive the
softened attraction `G*m1*m2 / (distSq + 5000)` divided by the receiving
particle's own mass, along the center line. -/
def gravApply (G : ℝ) (s1 s2 : OrbState) : OrbState × OrbState :=
  let dx := cx s1 - cx s2
  let dy := cy s1 - cy s2
  let dist := pairDist s1 s2
  let m1 := s1.size
  let m2 := s2.size
  let forceG := G * m1 * m2 / (distSqP s1 s2 + 5000)
  let nxG := dx / dist
  let nyG := dy / dist
  ( { s1 with vx := s1.vx - nxG * forceG / m1, vy := s1.vy - nyG * forceG / m1 },
    { s2 with vx := s2.vx + nxG * forceG / m2, vy := s2.vy + nyG * forceG / m2 } )

/-- The contact part of the pairwise loop (`if (dist < interactDist)`):
radial repulsion/suction plus the tangential vortex force, each divided by
the receiving particle's own mass. -/
def contactApply (R : ℝ) (i j : ℕ) (s1 s2 : OrbState) : OrbState × OrbState :=
  let dx := cx s1 - cx s2
  let dy := cy s1 - cy s2
  let dist := pairDist s1 s2
  let r1 := s1.size / 2
  let r2 := s2.size / 2
  let m1 := s1.size
  let m2 := s2.size
  if dist < interactDist s1 s2 then
    let nx := dx / dist
    let ny := dy / dist
    let tx := -ny
    let ty := nx
    let force := contactForce R r1 r2 dist
    let chirality : ℝ := if (i + j) % 2 = 0 then 1 else -1
    let slide := chirality * 0.08 * (1 - dist / interactDist s1 s2)
    ( { s1 with
        vx := s1.vx + nx * force / m1 + tx * slide / m1
        vy := s1.vy + ny * force / m1 + ty * slide / m1 },
      { s2 with
        vx := s2.vx - nx * force / m2 - tx * slide / m2
        vy := s2.vy - ny * force / m2 - ty * slide / m2 } )
  else (s1, s2)

/-- One iteration of the pairwise interaction loop for the pair `(i, j)`:
skip exactly-coincident centers, otherwise gravity followed by the contact
forces (positions are unchanged throughout, so the contact step reads the
same geometry the source computed once up front). -/
def pairUpdate (G R : ℝ) (i j : ℕ) (s1 s2 : OrbState) : OrbState × OrbState :=
  if distSqP s1 s2 = 0 then (s1, s2)
  else
    let g := gravApply G s1 s2
    contactApply R i j g.1 g.2

/-- The index pairs `(i, j)` with `i < j < n`, in the nested-loop order of
the source. -/
def pairIndices (n : ℕ) : List (ℕ × ℕ) :=
  (List.range n).flatMap fun i => ((List.range n).filter fun j => i < j).map fun j => (i, j)

/-- One step of the pairwise fold: read the two particles, interact, write
both back (the source mutates `this.states[i]` and `this.states[j]` in
place, so later pairs observe earlier pairs' velocity updates). -/
def pairStep (G R : ℝ) (sts : List OrbState) (ij : ℕ × ℕ) : List OrbState :=
  match sts.get? ij.1, sts.get? ij.2 with
  | some s1, some s2 =>
    let p := pairUpdate G R ij.1 ij.2 s1 s2
    (sts.set ij.1 p.1).set ij.2 p.2
  | _, _ => sts

/-- Phase 1 of `update`: the full O(n²) pairwise interaction loop. -/
def pairPhase (G R : ℝ) (states : List OrbState) : List OrbState :=
  (pairIndices states.length).foldl (pairStep G R) states

/-- Phase 0 of `update`: the ambient per-particle pseudo-noise drift. -/
def ambientDrift (t : ℝ) (states : List OrbState) : List OrbState :=
  mapWithIndex
    (fun i s =>
      let seed : ℝ := i * 1000
      { s with
        vx := s.vx + (Real.sin (t * 0.5 + seed) * 0.04 + Real.sin (t * 1.3 + seed * 2) * 0.02)
        vy := s.vy + (Real.cos (t * 0.6 + seed) * 0.04 + Real.cos (t * 1.4 + seed * 3) * 0.02) })
    0 states

/-- Step 2 of the per-particle loop: wander-angle jitter (`jit` is the
`Math.random()` draw), alignment of the wander angle with the velocity
heading, and the forward wander acceleration. -/
def wanderApply (cfg : OrbConfig) (jit : ℝ) (s : OrbState) : OrbState :=
  let th1 := s.wanderTheta + (jit - 0.5) * cfg.PHYSICS.WANDER_JITTER
  let diff := wrapAngle (atan2 s.vy s.vx - th1)
  let th2 := th1 + diff * 0.02
  { s with
    wanderTheta := th2
    vx := s.vx + Real.cos th2 * cfg.PHYSICS.ACCELERATION * 0.5
    vy := s.vy + Real.sin th2 * cfg.PHYSICS.ACCELERATION * 0.5 }

/-- Step 3 of the per-particle loop: friction then the soft speed clamp
(rescale to exactly `MAX_VELOCITY` when the magnitude exceeds it). -/
def frictionClampApply (cfg : OrbConfig) (s : OrbState) : OrbState :=
  let vx2 := s.vx * cfg.PHYSICS.FRICTION
  let vy2 := s.vy * cfg.PHYSICS.FRICTION
  let v := Real.sqrt (vx2 ^ 2 + vy2 ^ 2)
  if v > cfg.PHYSICS.MAX_VELOCITY then
    { s with vx := vx2 / v * cfg.PHYSICS.MAX_VELOCITY, vy := vy2 / v * cfg.PHYSICS.MAX_VELOCITY }
  else { s with vx := vx2, vy := vy2 }

/-- Step 4 of the per-particle loop: explicit Euler position update. -/
def integrate (s : OrbState) : OrbState :=
  { s with x := s.x + s.vx, y := s.y + s.vy }

/-- The correction branch of the boundary containment: steer the wander
angle toward the viewport center with a depth-ramped turn rate and add a
depth-ramped forward boost (at most `0.05`) along the new wander angle. -/
def steerCorrect (w h dOut : ℝ) (s : OrbState) : OrbState :=
  let targetAngle := atan2 (h / 2 - (s.y + s.size / 2)) (w / 2 - (s.x + s.size / 2))
  let ramp := min (dOut / 200) 1
  let diff := wrapAngle (targetAngle - s.wanderTheta)
  let turnRate := 0.02 + ramp * 0.1
  let th := s.wanderTheta + diff * turnRate
  let boost := ramp * 0.05
  { s with wanderTheta := th, vx := s.vx + Real.cos th * boost, vy := s.vy + Real.sin th * boost }

/-- The `distOut` accumulator of the boundary containment: starts at 0 and
takes the maximum excursion depth over the two axes (the `x` and `y`
branches are each `if`/`else if` in the source). -/
def boundaryDistOut (w h : ℝ) (s : OrbState) : ℝ :=
  let margin : ℝ := -100
  let dOutX := if s.x < margin then max 0 (margin - s.x)
    else if s.x > w - margin - s.size then max 0 (s.x - (w - margin - s.size)) else 0
  if s.y < margin then max dOutX (margin - s.y)
  else if s.y > h - margin - s.size then max dOutX (s.y - (h - margin - s.size)) else dOutX

/-- Step 5 of the per-particle loop: the soft boundary containment
(`needsCorrection` is set exactly when some axis branch fires). -/
def boundarySteer (w h : ℝ) (s : OrbState) : OrbState :=
  let margin : ℝ := -100
  if (s.x < margin ∨ s.x > w - margin - s.size) ∨
      (s.y < margin ∨ s.y > h - margin - s.size) then
    steerCorrect w h (boundaryDistOut w h s) s
  else s

/-- Steps 2–5 of the per-particle loop of `update`, in source order. -/
def stepParticle (cfg : OrbConfig) (w h jit : ℝ) (s : OrbState) : OrbState :=
  boundarySteer w h (integrate (frictionClampApply cfg (wanderApply cfg jit s)))

/-- A transform written to a rendering handle: `translate3d(tx, ty, 0)`
optionally followed by `scale(scl)` (the contrast layer always gets a scale,
the color layer never does). -/
structure Transform where
  tx : ℝ
  ty : ℝ
  scl : Option ℝ

/-- A rendering handle (DOM element), modelled by the transform last written
to its style, if any. -/
structure Elem where
  transform : Option Transform

/-- The scale factor for the contrast layer: 1 in edge mode, otherwise
linearly interpolated in `[0.8, 0.92]` from the particle's opacity (with the
source's falsy-guarded denominator `(OPACITY.MAX - OPACITY.MIN) || 1`). -/
def scaleFor (cfg : OrbConfig) (edgeMode : Bool) (opac : Option ℝ) : ℝ :=
  if edgeMode then 1
  else
    let opacity := opac.getD cfg.OPACITY.MIN
    let minScale : ℝ := 0.8
    let maxScale : ℝ := 0.92
    minScale + (opacity - cfg.OPACITY.MIN) / orFalsy (cfg.OPACITY.MAX - cfg.OPACITY.MIN) 1
      * (maxScale - minScale)

/-- Step 6 of the per-particle loop for both handle arrays: a handle that is
present (`if (orbElements[i])`) and has a corresponding particle receives its
transform write, any other entry is left untouched. -/
def applyTransforms (cfg : OrbConfig) (edgeMode : Bool) (orbs : List OrbVisual)
    (sts : List OrbState) (contrast colorH : List (Option Elem)) :
    List (Option Elem) × List (Option Elem) :=
  ( mapWithIndex
      (fun i e? =>
        match sts.get? i with
        | some s => e?.map fun _ =>
            ⟨some ⟨s.x, s.y, some (scaleFor cfg edgeMode ((orbs.get? i).map OrbVisual.opacity))⟩⟩
        | none => e?)
      0 contrast,
    mapWithIndex
      (fun i e? =>
        match sts.get? i with
        | some s => e?.map fun _ => ⟨some ⟨s.x, s.y, none⟩⟩
        | none => e?)
      0 colorH )

/-- `update(orbElementsContrast, orbElementsColor, edgeMode)`: no-op when a
viewport dimension is falsy; otherwise advance the time accumulator, run the
ambient drift, the pairwise loop (with the falsy-guarded effective gravity and
repulsion strengths), the per-particle steering/integration loop, and write
the transforms to the provided handles.  `jit` is the per-particle stream of
`Math.random()` draws for the wander jitter. -/
def update (sys : OrbSystem) (contrast colorH : List (Option Elem)) (edgeMode : Bool)
    (jit : ℕ → ℝ) : OrbSystem × List (Option Elem) × List (Option Elem) :=
  if sys.width = 0 ∨ sys.height = 0 then (sys, contrast, colorH)
  else
    let time2 := sys.time + 0.002
    let sts1 := ambientDrift time2 sys.states
    let sts2 := pairPhase (orFalsy sys.config.PHYSICS.GRAVITY_STRENGTH 0.05)
      (orFalsy sys.config.PHYSICS.REPULSION_STRENGTH 0.5) sts1
    let sts3 := mapWithIndex (fun i s => stepParticle sys.config sys.width sys.height (jit i) s)
      0 sts2
    let hs := applyTransforms sys.config edgeMode sys.orbs sts3 contrast colorH
    ({ sys with states := sts3, time := time2 }, hs.1, hs.2)

/-! ### Helper lemmas about the list combinators -/

theorem mapWithIndex_length (f : ℕ → α → β) : ∀ (k : ℕ) (l : List α),
    (mapWithIndex f k l).length = l.length
  | _, [] => rfl
  | k, _ :: as => by simp [mapWithIndex, mapWithIndex_length f (k + 1) as]

theorem mapWithIndex_get? (f : ℕ → α → β) : ∀ (k : ℕ) (l : List α) (i : ℕ),
    (mapWithIndex f k l).get? i = (l.get? i).map (f (k + i))
  | _, [], i => by simp [mapWithIndex]
  | k, a :: as, 0 => by simp [mapWithIndex]
  | k, a :: as, i + 1 => by
    simpa [mapWithIndex, Nat.add_assoc, Nat.add_comm 1 i]
      using mapWithIndex_get? f (k + 1) as i

theorem mem_mapWithIndex {f : ℕ → α → β} {b : β} : ∀ {k : ℕ} {l : List α},
    b ∈ mapWithIndex f k l → ∃ i a, a ∈ l ∧ b = f i a := by
  intro k l
  induction l generalizing k with
  | nil => intro h; simp [mapWithIndex] at h
  | cons a as ih =>
    intro h
    rw [show mapWithIndex f k (a :: as) = f k a :: mapWithIndex f (k + 1) as from rfl,
      List.mem_cons] at h
    rcases h with h | h
    · exact ⟨k, a, List.mem_cons_self a as, h⟩
    · obtain ⟨i, a', ha', hb⟩ := ih h
      exact ⟨i, a', List.mem_cons_of_mem a ha', hb⟩

theorem pairStep_length (G R : ℝ) (sts : List OrbState) (ij : ℕ × ℕ) :
    (pairStep G R sts ij).length = sts.length := by
  unfold pairStep
  rcases h1 : sts.get? ij.1 with _ | s1 <;> rcases h2 : sts.get? ij.2 with _ | s2 <;> simp

theorem pairFold_length (G R : ℝ) : ∀ (l : List (ℕ × ℕ)) (sts : List OrbState),
    (l.foldl (pairStep G R) sts).length = sts.length
  | [], _ => rfl
  | ij :: l, sts => by
    simp only [List.foldl_cons]
    rw [pairFold_length G R l (pairStep G R sts ij), pairStep_length]

theorem pairPhase_length (G R : ℝ) (sts : List OrbState) :
    (pairPhase G R sts).length = sts.length := pairFold_length G R _ sts

theorem ambientDrift_length (t : ℝ) (sts : List OrbState) :
    (ambientDrift t sts).length = sts.length := mapWithIndex_length _ 0 sts

/-- `rand` stays within a well-ordered range when the draw is in `[0,1)`. -/
theorem rand_mem_range {mn mx u : ℝ} (hmn : mn ≤ mx) (hu0 : 0 ≤ u) (hu1 : u < 1) :
    mn ≤ rand mn mx u ∧ rand mn mx u ≤ mx := by
  unfold rand
  constructor
  · nlinarith
  · nlinarith

/-- Euclidean triangle inequality in coordinates. -/
theorem sqrt_add_sq_le_add (x y a b : ℝ) :
    Real.sqrt ((x + a) ^ 2 + (y + b) ^ 2) ≤
      Real.sqrt (x ^ 2 + y ^ 2) + Real.sqrt (a ^ 2 + b ^ 2) := by
  have hxy : (0 : ℝ) ≤ x ^ 2 + y ^ 2 := by positivity
  have hab : (0 : ℝ) ≤ a ^ 2 + b ^ 2 := by positivity
  have hcs : x * a + y * b ≤ Real.sqrt (x ^ 2 + y ^ 2) * Real.sqrt (a ^ 2 + b ^ 2) := by
    have h2 : x * a + y * b ≤ |x * a + y * b| := le_abs_self _
    have h3 : |x * a + y * b| = Real.sqrt ((x * a + y * b) ^ 2) := (Real.sqrt_sq_eq_abs _).symm
    have h4 : (x * a + y * b) ^ 2 ≤ (x ^ 2 + y ^ 2) * (a ^ 2 + b ^ 2) := by
      nlinarith [sq_nonneg (x * b - y * a)]
    have h5 := Real.sqrt_le_sqrt h4
    rw [Real.sqrt_mul hxy] at h5
    calc x * a + y * b ≤ |x * a + y * b| := h2
      _ = Real.sqrt ((x * a + y * b) ^ 2) := h3
      _ ≤ _ := h5
  have e1 : Real.sqrt (x ^ 2 + y ^ 2) ^ 2 = x ^ 2 + y ^ 2 := Real.sq_sqrt hxy
  have e2 : Real.sqrt (a ^ 2 + b ^ 2) ^ 2 = a ^ 2 + b ^ 2 := Real.sq_sqrt hab
  have hs : (x + a) ^ 2 + (y + b) ^ 2 ≤
      (Real.sqrt (x ^ 2 + y ^ 2) + Real.sqrt (a ^ 2 + b ^ 2)) ^ 2 := by nlinarith
  calc Real.sqrt ((x + a) ^ 2 + (y + b) ^ 2)
      ≤ Real.sqrt ((Real.sqrt (x ^ 2 + y ^ 2) + Real.sqrt (a ^ 2 + b ^ 2)) ^ 2) :=
        Real.sqrt_le_sqrt hs
    _ = Real.sqrt (x ^ 2 + y ^ 2) + Real.sqrt (a ^ 2 + b ^ 2) := by
        rw [Real.sqrt_sq (by positivity)]

/-- After friction and the soft clamp, the speed is at most `MAX_VELOCITY`. -/
theorem frictionClamp_speed (cfg : OrbConfig) (s : OrbState)
    (hM : 0 ≤ cfg.PHYSICS.MAX_VELOCITY) :
    Real.sqrt ((frictionClampApply cfg s).vx ^ 2 + (frictionClampApply cfg s).vy ^ 2) ≤
      cfg.PHYSICS.MAX_VELOCITY := by
  simp only [frictionClampApply]
  set vx2 := s.vx * cfg.PHYSICS.FRICTION with hvx2
  set vy2 := s.vy * cfg.PHYSICS.FRICTION with hvy2
  set M := cfg.PHYSICS.MAX_VELOCITY with hMdef
  set v := Real.sqrt (vx2 ^ 2 + vy2 ^ 2) with hvdef
  split_ifs with hv
  · dsimp only
    have hA : (0 : ℝ) ≤ vx2 ^ 2 + vy2 ^ 2 := by positivity
    have hv0 : (0 : ℝ) < v := lt_of_le_of_lt hM hv
    have hv2 : v ^ 2 = vx2 ^ 2 + vy2 ^ 2 := by
      rw [hvdef]
      exact Real.sq_sqrt hA
    have key : (vx2 / v * M) ^ 2 + (vy2 / v * M) ^ 2 = M ^ 2 := by
      have h1 : (vx2 / v * M) ^ 2 + (vy2 / v * M) ^ 2 = (vx2 ^ 2 + vy2 ^ 2) / v ^ 2 * M ^ 2 := by
        ring
      rw [h1, ← hv2, div_self (pow_ne_zero 2 (ne_of_gt hv0)), one_mul]
    rw [key, Real.sqrt_sq hM]
  · dsimp only
    exact le_of_not_lt hv

/-- The boundary-correction branch increases the speed by at most `0.05`. -/
theorem steerCorrect_speed (w h dOut : ℝ) (s : OrbState) (hd : 0 ≤ dOut) :
    Real.sqrt ((steerCorrect w h dOut s).vx ^ 2 + (steerCorrect w h dOut s).vy ^ 2) ≤
      Real.sqrt (s.vx ^ 2 + s.vy ^ 2) + 0.05 := by
  have key : ∀ th b : ℝ, 0 ≤ b → b ≤ 0.05 →
      Real.sqrt ((s.vx + Real.cos th * b) ^ 2 + (s.vy + Real.sin th * b) ^ 2) ≤
        Real.sqrt (s.vx ^ 2 + s.vy ^ 2) + 0.05 := by
    intro th b hb0 hb1
    have htri := sqrt_add_sq_le_add s.vx s.vy (Real.cos th * b) (Real.sin th * b)
    have hnorm : Real.sqrt ((Real.cos th * b) ^ 2 + (Real.sin th * b) ^ 2) = b := by
      have hcs := Real.sin_sq_add_cos_sq th
      have : (Real.cos th * b) ^ 2 + (Real.sin th * b) ^ 2 = b ^ 2 := by nlinarith
      rw [this, Real.sqrt_sq hb0]
    rw [hnorm] at htri
    linarith
  have hr0 : 0 ≤ min (dOut / 200) 1 := le_min (by positivity) zero_le_one
  have hr1 : min (dOut / 200) 1 ≤ 1 := min_le_right _ _
  exact key _ _ (by nlinarith) (by nlinarith)

/-- The `distOut` accumulator of the boundary containment is nonnegative. -/
theorem boundaryDistOut_nonneg (w h : ℝ) (s : OrbState) : 0 ≤ boundaryDistOut w h s := by
  unfold boundaryDistOut
  dsimp only
  split_ifs <;> simp [le_max_iff]

/-- The boundary containment step increases the speed by at most `0.05`. -/
theorem boundarySteer_speed (w h : ℝ) (s : OrbState) :
    Real.sqrt ((boundarySteer w h s).vx ^ 2 + (boundarySteer w h s).vy ^ 2) ≤
      Real.sqrt (s.vx ^ 2 + s.vy ^ 2) + 0.05 := by
  unfold boundarySteer
  dsimp only
  split_ifs with hc
  · exact steerCorrect_speed w h _ s (boundaryDistOut_nonneg w h s)
  · linarith

/-- The full per-particle step leaves the speed at most `MAX_VELOCITY + 0.05`
(the clamp caps the speed at `MAX_VELOCITY`; only the boundary boost, itself
at most `0.05`, is applied afterwards). -/
theorem stepParticle_speed (cfg : OrbConfig) (w h jit : ℝ) (s : OrbState)
    (hM : 0 ≤ cfg.PHYSICS.MAX_VELOCITY) :
    Real.sqrt ((stepParticle cfg w h jit s).vx ^ 2 + (stepParticle cfg w h jit s).vy ^ 2) ≤
      cfg.PHYSICS.MAX_VELOCITY + 0.05 := by
  unfold stepParticle
  have h1 := frictionClamp_speed cfg (wanderApply cfg jit s) hM
  have h3 := boundarySteer_speed w h (integrate (frictionClampApply cfg (wanderApply cfg jit s)))
  have h2 : Real.sqrt ((integrate (frictionClampApply cfg (wanderApply cfg jit s))).vx ^ 2 +
      (integrate (frictionClampApply cfg (wanderApply cfg jit s))).vy ^ 2) =
      Real.sqrt ((frictionClampApply cfg (wanderApply cfg jit s)).vx ^ 2 +
        (frictionClampApply cfg (wanderApply cfg jit s)).vy ^ 2) := rfl
  rw [h2] at h3
  linarith

/-! ### Claim theorems -/

/-- C6: when a viewport dimension is zero/unset, `initOrbs` and `update` are
no-ops: the system (states, orbs, config, time) and both handle arrays are
returned exactly as they were, and nothing is thrown (both are total). -/
theorem noop_before_resize (sys : OrbSystem) (u : ℕ → ℝ)
    (c1 c2 : List (Option Elem)) (edgeMode : Bool) (jit : ℕ → ℝ)
    (h : sys.width = 0 ∨ sys.height = 0) :
    initOrbs sys u = sys ∧ update sys c1 c2 edgeMode jit = (sys, c1, c2) := by
  constructor
  · unfold initOrbs; rw [if_pos h]
  · unfold update; rw [if_pos h]

/-- Witness for C6 at a concrete uninitialized system. -/
theorem noop_before_resize_witness :
    (OrbSystem.create DEFAULT_CONFIG).width = 0 ∧
      initOrbs (OrbSystem.create DEFAULT_CONFIG) (fun _ => 0) = OrbSystem.create DEFAULT_CONFIG ∧
      update (OrbSystem.create DEFAULT_CONFIG) [] [] true (fun _ => 0) =
        (OrbSystem.create DEFAULT_CONFIG, [], []) := by
  refine ⟨rfl, ?_⟩
  have h := noop_before_resize (OrbSystem.create DEFAULT_CONFIG) (fun _ => 0) [] [] true
    (fun _ => 0) (Or.inl rfl)
  exact ⟨h.1, h.2⟩

/-- C9: `setConfig` replaces exactly the top-level fields present in the
patch, keeps every absent field at its prior value, and leaves the states,
the orbs, the viewport dimensions and the time accumulator untouched (no
re-initialization). -/
theorem setConfig_shallow_merge (sys : OrbSystem) (p : OrbConfigPatch) :
    (setConfig sys p).config.ORB_COUNT = p.ORB_COUNT.getD sys.config.ORB_COUNT ∧
    (setConfig sys p).config.SIZE = p.SIZE.getD sys.config.SIZE ∧
    (setConfig sys p).config.OPACITY = p.OPACITY.getD sys.config.OPACITY ∧
    (setConfig sys p).config.COLORS = p.COLORS.getD sys.config.COLORS ∧
    (setConfig sys p).config.PHYSICS = p.PHYSICS.getD sys.config.PHYSICS ∧
    (setConfig sys p).states = sys.states ∧
    (setConfig sys p).orbs = sys.orbs ∧
    (setConfig sys p).width = sys.width ∧
    (setConfig sys p).height = sys.height ∧
    (setConfig sys p).time = sys.time :=
  ⟨rfl, rfl, rfl, rfl, rfl, rfl, rfl, rfl, rfl, rfl⟩

/-- C2: after `initOrbs` on a system with positive viewport dimensions, both
lists have exactly `ORB_COUNT` elements and index `i` of `states` and of
`orbs` are the two halves of the same `initOrb` creation. -/
theorem initOrbs_population (sys : OrbSystem) (u : ℕ → ℝ)
    (hw : 0 < sys.width) (hh : 0 < sys.height) :
    (initOrbs sys u).states.length = sys.config.ORB_COUNT ∧
    (initOrbs sys u).orbs.length = sys.config.ORB_COUNT ∧
    ∀ i, i < sys.config.ORB_COUNT →
      (initOrbs sys u).states.get? i =
        some (initOrb sys.config sys.width sys.height u i).1 ∧
      (initOrbs sys u).orbs.get? i =
        some (initOrb sys.config sys.width sys.height u i).2 := by
  have hcond : ¬(sys.width = 0 ∨ sys.height = 0) := by
    push_neg
    exact ⟨ne_of_gt hw, ne_of_gt hh⟩
  unfold initOrbs
  rw [if_neg hcond]
  refine ⟨by simp, by simp, fun i hi => ⟨?_, ?_⟩⟩ <;>
    simp [List.get?_eq_getElem?, List.getElem?_map, List.getElem?_range hi]

/-- Witness for C2 at a concrete 800×600 system with the default config. -/
theorem initOrbs_population_witness :
    0 < (resize (OrbSystem.create DEFAULT_CONFIG) 800 600).width ∧
      0 < (resize (OrbSystem.create DEFAULT_CONFIG) 800 600).height ∧
      ((initOrbs (resize (OrbSystem.create DEFAULT_CONFIG) 800 600) (fun _ => 0)).states.length =
          (resize (OrbSystem.create DEFAULT_CONFIG) 800 600).config.ORB_COUNT ∧
        (initOrbs (resize (OrbSystem.create DEFAULT_CONFIG) 800 600) (fun _ => 0)).orbs.length =
          (resize (OrbSystem.create DEFAULT_CONFIG) 800 600).config.ORB_COUNT ∧
        ∀ i, i < (resize (OrbSystem.create DEFAULT_CONFIG) 800 600).config.ORB_COUNT →
          (initOrbs (resize (OrbSystem.create DEFAULT_CONFIG) 800 600) (fun _ => 0)).states.get? i =
            some (initOrb (resize (OrbSystem.create DEFAULT_CONFIG) 800 600).config
              (resize (OrbSystem.create DEFAULT_CONFIG) 800 600).width
              (resize (OrbSystem.create DEFAULT_CONFIG) 800 600).height (fun _ => 0) i).1 ∧
          (initOrbs (resize (OrbSystem.create DEFAULT_CONFIG) 800 600) (fun _ => 0)).orbs.get? i =
            some (initOrb (resize (OrbSystem.create DEFAULT_CONFIG) 800 600).config
              (resize (OrbSystem.create DEFAULT_CONFIG) 800 600).width
              (resize (OrbSystem.create DEFAULT_CONFIG) 800 600).height (fun _ => 0) i).2) := by
  refine ⟨by norm_num [resize, OrbSystem.create], by norm_num [resize, OrbSystem.create], ?_⟩
  exact initOrbs_population (resize (OrbSystem.create DEFAULT_CONFIG) 800 600) (fun _ => 0)
    (by norm_num [resize, OrbSystem.create]) (by norm_num [resize, OrbSystem.create])

/-- C7: after `initOrbs` on a system with positive viewport dimensions,
well-ordered configured ranges and valid random draws, every created particle
has `size ∈ [SIZE.MIN, SIZE.MAX]` and every created visual has
`opacity ∈ [OPACITY.MIN, OPACITY.MAX]`. -/
theorem initOrbs_bounds (sys : OrbSystem) (u : ℕ → ℝ)
    (hw : 0 < sys.width) (hh : 0 < sys.height)
    (hsize : sys.config.SIZE.MIN ≤ sys.config.SIZE.MAX)
    (hopac : sys.config.OPACITY.MIN ≤ sys.config.OPACITY.MAX)
    (hu : ∀ k, 0 ≤ u k ∧ u k < 1) :
    (∀ s ∈ (initOrbs sys u).states,
        sys.config.SIZE.MIN ≤ s.size ∧ s.size ≤ sys.config.SIZE.MAX) ∧
    ∀ o ∈ (initOrbs sys u).orbs,
        sys.config.OPACITY.MIN ≤ o.opacity ∧ o.opacity ≤ sys.config.OPACITY.MAX := by
  have hcond : ¬(sys.width = 0 ∨ sys.height = 0) := by
    push_neg
    exact ⟨ne_of_gt hw, ne_of_gt hh⟩
  unfold initOrbs
  rw [if_neg hcond]
  constructor
  · intro s hs
    simp only [List.map_map, List.mem_map, List.mem_range] at hs
    obtain ⟨i, _, hdef⟩ := hs
    have : s.size = rand sys.config.SIZE.MIN sys.config.SIZE.MAX (u (10 * i)) := by
      rw [← hdef]
      rfl
    rw [this]
    exact rand_mem_range hsize (hu (10 * i)).1 (hu (10 * i)).2
  · intro o ho
    simp only [List.map_map, List.mem_map, List.mem_range] at ho
    obtain ⟨i, _, hdef⟩ := ho
    have : o.opacity = rand sys.config.OPACITY.MIN sys.config.OPACITY.MAX (u (10 * i + 9)) := by
      rw [← hdef]
      rfl
    rw [this]
    exact rand_mem_range hopac (hu (10 * i + 9)).1 (hu (10 * i + 9)).2

/-- Witness for C7 at a concrete 800×600 system with the default config and
the constant-zero draw stream. -/
theorem initOrbs_bounds_witness :
    ((∀ s ∈ (initOrbs (resize (OrbSystem.create DEFAULT_CONFIG) 800 600) (fun _ => 0)).states,
        (resize (OrbSystem.create DEFAULT_CONFIG) 800 600).config.SIZE.MIN ≤ s.size ∧
          s.size ≤ (resize (OrbSystem.create DEFAULT_CONFIG) 800 600).config.SIZE.MAX) ∧
      ∀ o ∈ (initOrbs (resize (OrbSystem.create DEFAULT_CONFIG) 800 600) (fun _ => 0)).orbs,
        (resize (OrbSystem.create DEFAULT_CONFIG) 800 600).config.OPACITY.MIN ≤ o.opacity ∧
          o.opacity ≤ (resize (OrbSystem.create DEFAULT_CONFIG) 800 600).config.OPACITY.MAX) :=
  initOrbs_bounds (resize (OrbSystem.create DEFAULT_CONFIG) 800 600) (fun _ => 0)
    (by norm_num [resize, OrbSystem.create]) (by norm_num [resize, OrbSystem.create])
    (by norm_num [resize, OrbSystem.create, DEFAULT_CONFIG])
    (by norm_num [resize, OrbSystem.create, DEFAULT_CONFIG])
    (fun k => ⟨le_refl 0, by norm_num⟩)

/-- C1: at the end of every `update` call on an initialized system, every
particle's speed is at most `MAX_VELOCITY + ε` with `ε = 0.05` (the cap of
the post-clamp boundary boost), no matter how strong the forces accumulated
during the frame were. -/
theorem update_speed_clamp (sys : OrbSystem) (c1 c2 : List (Option Elem))
    (edgeMode : Bool) (jit : ℕ → ℝ) (hw : sys.width ≠ 0) (hh : sys.height ≠ 0)
    (hM : 0 ≤ sys.config.PHYSICS.MAX_VELOCITY) :
    ∀ s ∈ ((update sys c1 c2 edgeMode jit).1).states,
      Real.sqrt (s.vx ^ 2 + s.vy ^ 2) ≤ sys.config.PHYSICS.MAX_VELOCITY + 0.05 := by
  have hcond : ¬(sys.width = 0 ∨ sys.height = 0) := by
    push_neg
    exact ⟨hw, hh⟩
  have hst : ((update sys c1 c2 edgeMode jit).1).states =
      mapWithIndex (fun i s => stepParticle sys.config sys.width sys.height (jit i) s) 0
        (pairPhase (orFalsy sys.config.PHYSICS.GRAVITY_STRENGTH 0.05)
          (orFalsy sys.config.PHYSICS.REPULSION_STRENGTH 0.5)
          (ambientDrift (sys.time + 0.002) sys.states)) := by
    unfold update
    rw [if_neg hcond]
  intro s hs
  rw [hst] at hs
  obtain ⟨i, a, _, rfl⟩ := mem_mapWithIndex hs
  exact stepParticle_speed sys.config sys.width sys.height (jit i) a hM

/-- A concrete 800×600 single-particle running system with the default
configuration, used as a concrete input by several witnesses. -/
def sampleSys : OrbSystem :=
  { width := 800, height := 600, states := [⟨0, 0, 0, 0, 200, 0⟩],
    orbs := [⟨200, ⟨0, 0, 0⟩, 0.7⟩], config := DEFAULT_CONFIG, time := 0 }

/-- Witness for C1 at a concrete 800×600 single-particle system with the
default configuration (`MAX_VELOCITY = 0.8`). -/
theorem update_speed_clamp_witness :
    sampleSys.width ≠ 0 ∧ sampleSys.height ≠ 0 ∧
      (0 : ℝ) ≤ sampleSys.config.PHYSICS.MAX_VELOCITY ∧
      ∀ s ∈ ((update sampleSys [] [] true fun _ => 0).1).states,
        Real.sqrt (s.vx ^ 2 + s.vy ^ 2) ≤ sampleSys.config.PHYSICS.MAX_VELOCITY + 0.05 := by
  refine ⟨by norm_num [sampleSys], by norm_num [sampleSys],
    by norm_num [sampleSys, DEFAULT_CONFIG], ?_⟩
  exact update_speed_clamp sampleSys [] [] true (fun _ => 0) (by norm_num [sampleSys])
    (by norm_num [sampleSys]) (by norm_num [sampleSys, DEFAULT_CONFIG])

/-- C4: for every pair of distinct particles with non-coinciding centers,
the pairwise step applies gravity unconditionally (no distance guard), and
the gravity phase adds to each particle a velocity delta of magnitude
`(G·m1·m2/(d² + 5000)) / m_own` (mass = size, softening fixed at 5000),
directed along the center line toward the other particle, so each particle
is pulled toward the other. -/
theorem gravity_pull (G R : ℝ) (i j : ℕ) (s1 s2 : OrbState)
    (hd : distSqP s1 s2 ≠ 0) (hm1 : 0 < s1.size) (hm2 : 0 < s2.size) (hG : 0 < G) :
    pairUpdate G R i j s1 s2 =
      contactApply R i j (gravApply G s1 s2).1 (gravApply G s1 s2).2 ∧
    (gravApply G s1 s2).1.vx - s1.vx =
      G * s1.size * s2.size / (distSqP s1 s2 + 5000) / s1.size *
        ((cx s2 - cx s1) / pairDist s1 s2) ∧
    (gravApply G s1 s2).1.vy - s1.vy =
      G * s1.size * s2.size / (distSqP s1 s2 + 5000) / s1.size *
        ((cy s2 - cy s1) / pairDist s1 s2) ∧
    Real.sqrt (((gravApply G s1 s2).1.vx - s1.vx) ^ 2 +
        ((gravApply G s1 s2).1.vy - s1.vy) ^ 2) =
      G * s1.size * s2.size / (distSqP s1 s2 + 5000) / s1.size ∧
    (gravApply G s1 s2).2.vx - s2.vx =
      G * s1.size * s2.size / (distSqP s1 s2 + 5000) / s2.size *
        ((cx s1 - cx s2) / pairDist s1 s2) ∧
    (gravApply G s1 s2).2.vy - s2.vy =
      G * s1.size * s2.size / (distSqP s1 s2 + 5000) / s2.size *
        ((cy s1 - cy s2) / pairDist s1 s2) ∧
    Real.sqrt (((gravApply G s1 s2).2.vx - s2.vx) ^ 2 +
        ((gravApply G s1 s2).2.vy - s2.vy) ^ 2) =
      G * s1.size * s2.size / (distSqP s1 s2 + 5000) / s2.size ∧
    0 < ((gravApply G s1 s2).1.vx - s1.vx) * (cx s2 - cx s1) +
        ((gravApply G s1 s2).1.vy - s1.vy) * (cy s2 - cy s1) ∧
    0 < ((gravApply G s1 s2).2.vx - s2.vx) * (cx s1 - cx s2) +
        ((gravApply G s1 s2).2.vy - s2.vy) * (cy s1 - cy s2) := by
  have hD : (cx s1 - cx s2) ^ 2 + (cy s1 - cy s2) ^ 2 = distSqP s1 s2 := rfl
  have hd0 : 0 < distSqP s1 s2 := by
    rcases lt_or_eq_of_le (by positivity : (0 : ℝ) ≤ (cx s1 - cx s2) ^ 2 + (cy s1 - cy s2) ^ 2)
      with h | h
    · exact hD ▸ h
    · exact absurd (hD ▸ h.symm) hd
  have hdist : 0 < pairDist s1 s2 := Real.sqrt_pos.mpr hd0
  have hd2 : pairDist s1 s2 ^ 2 = distSqP s1 s2 := Real.sq_sqrt hd0.le
  have hden : (0 : ℝ) < distSqP s1 s2 + 5000 := by linarith
  have hf : 0 < G * s1.size * s2.size / (distSqP s1 s2 + 5000) :=
    div_pos (mul_pos (mul_pos hG hm1) hm2) hden
  have e1 : (gravApply G s1 s2).1.vx - s1.vx =
      G * s1.size * s2.size / (distSqP s1 s2 + 5000) / s1.size *
        ((cx s2 - cx s1) / pairDist s1 s2) := by
    simp only [gravApply]
    ring
  have e2 : (gravApply G s1 s2).1.vy - s1.vy =
      G * s1.size * s2.size / (distSqP s1 s2 + 5000) / s1.size *
        ((cy s2 - cy s1) / pairDist s1 s2) := by
    simp only [gravApply]
    ring
  have e3 : (gravApply G s1 s2).2.vx - s2.vx =
      G * s1.size * s2.size / (distSqP s1 s2 + 5000) / s2.size *
        ((cx s1 - cx s2) / pairDist s1 s2) := by
    simp only [gravApply]
    ring
  have e4 : (gravApply G s1 s2).2.vy - s2.vy =
      G * s1.size * s2.size / (distSqP s1 s2 + 5000) / s2.size *
        ((cy s1 - cy s2) / pairDist s1 s2) := by
    simp only [gravApply]
    ring
  have hnorm : ∀ m : ℝ, 0 < m →
      (G * s1.size * s2.size / (distSqP s1 s2 + 5000) / m *
          ((cx s2 - cx s1) / pairDist s1 s2)) ^ 2 +
        (G * s1.size * s2.size / (distSqP s1 s2 + 5000) / m *
          ((cy s2 - cy s1) / pairDist s1 s2)) ^ 2 =
      (G * s1.size * s2.size / (distSqP s1 s2 + 5000) / m) ^ 2 := by
    intro m _
    have step : (G * s1.size * s2.size / (distSqP s1 s2 + 5000) / m *
          ((cx s2 - cx s1) / pairDist s1 s2)) ^ 2 +
        (G * s1.size * s2.size / (distSqP s1 s2 + 5000) / m *
          ((cy s2 - cy s1) / pairDist s1 s2)) ^ 2 =
        (G * s1.size * s2.size / (distSqP s1 s2 + 5000) / m) ^ 2 *
          (((cx s1 - cx s2) ^ 2 + (cy s1 - cy s2) ^ 2) / pairDist s1 s2 ^ 2) := by
      ring
    rw [step, hD, hd2, div_self hd0.ne', mul_one]
  refine ⟨?_, e1, e2, ?_, e3, e4, ?_, ?_, ?_⟩
  · unfold pairUpdate
    rw [if_neg hd]
  · rw [e1, e2, hnorm s1.size hm1,
      Real.sqrt_sq (le_of_lt (div_pos hf hm1))]
  · have e3x : (gravApply G s1 s2).2.vx - s2.vx =
        G * s1.size * s2.size / (distSqP s1 s2 + 5000) / s2.size *
          ((cx s2 - cx s1) / pairDist s1 s2) * (-1) := by
      rw [e3]
      ring
    have e4y : (gravApply G s1 s2).2.vy - s2.vy =
        G * s1.size * s2.size / (distSqP s1 s2 + 5000) / s2.size *
          ((cy s2 - cy s1) / pairDist s1 s2) * (-1) := by
      rw [e4]
      ring
    have : ((gravApply G s1 s2).2.vx - s2.vx) ^ 2 + ((gravApply G s1 s2).2.vy - s2.vy) ^ 2 =
        (G * s1.size * s2.size / (distSqP s1 s2 + 5000) / s2.size) ^ 2 := by
      rw [e3x, e4y]
      have := hnorm s2.size hm2
      nlinarith [this]
    rw [this, Real.sqrt_sq (le_of_lt (div_pos hf hm2))]
  · have hdot : ((gravApply G s1 s2).1.vx - s1.vx) * (cx s2 - cx s1) +
        ((gravApply G s1 s2).1.vy - s1.vy) * (cy s2 - cy s1) =
        G * s1.size * s2.size / (distSqP s1 s2 + 5000) / s1.size / pairDist s1 s2 *
          distSqP s1 s2 := by
      rw [e1, e2, ← hD]
      ring
    rw [hdot]
    exact mul_pos (div_pos (div_pos hf hm1) hdist) hd0
  · have hdot : ((gravApply G s1 s2).2.vx - s2.vx) * (cx s1 - cx s2) +
        ((gravApply G s1 s2).2.vy - s2.vy) * (cy s1 - cy s2) =
        G * s1.size * s2.size / (distSqP s1 s2 + 5000) / s2.size / pairDist s1 s2 *
          distSqP s1 s2 := by
      rw [e3, e4, ← hD]
      ring
    rw [hdot]
    exact mul_pos (div_pos (div_pos hf hm2) hdist) hd0

/-- Two concrete particles of size 200 with centers 150 px apart
horizontally, used by several witnesses and the C3 counterexample. -/
def sampleP1 : OrbState := ⟨0, 0, 0, 0, 200, 0⟩

/-- See `sampleP1`. -/
def sampleP2 : OrbState := ⟨150, 0, 0, 0, 200, 0⟩

/-- Witness for C4 at the concrete particle pair `sampleP1`, `sampleP2`. -/
theorem gravity_pull_witness :
    distSqP sampleP1 sampleP2 ≠ 0 ∧ 0 < sampleP1.size ∧ 0 < sampleP2.size ∧
      0 < ((gravApply 1.5 sampleP1 sampleP2).1.vx - sampleP1.vx) * (cx sampleP2 - cx sampleP1) +
        ((gravApply 1.5 sampleP1 sampleP2).1.vy - sampleP1.vy) * (cy sampleP2 - cy sampleP1) := by
  have h1 : distSqP sampleP1 sampleP2 ≠ 0 := by
    norm_num [distSqP, cx, cy, sampleP1, sampleP2]
  have h2 : (0 : ℝ) < sampleP1.size := by norm_num [sampleP1]
  have h3 : (0 : ℝ) < sampleP2.size := by norm_num [sampleP2]
  exact ⟨h1, h2, h3,
    (gravity_pull 1.5 0.5 0 1 sampleP1 sampleP2 h1 h2 h3 (by norm_num)).2.2.2.2.2.2.2.1⟩

/-- C5: within the contact zone the radial force is repulsive for
`d < r1 + r2`, with magnitude exponential in the overlap fraction
`(r1 + r2 - d)/(r1 + r2)` (strictly larger for deeper overlap), and
attractive (≤ 0, strictly negative strictly inside) for
`r1 + r2 ≤ d < 1.3·(r1 + r2)`, following a sine curve of the normalized
zone position that vanishes at the touch end and peaks (magnitude `0.8`,
the maximum over the zone) at mid-zone; the sign of the scalar force is
exactly the sign of the radial velocity push applied by `contactApply`
to particle 1 along the line away from particle 2. -/
theorem contact_force_profile (R r1 r2 : ℝ) (hr1 : 0 < r1) (hr2 : 0 < r2) (hR : 0 < R) :
    (∀ d, 0 ≤ d → d < r1 + r2 →
      contactForce R r1 r2 d = R * Real.exp ((r1 + r2 - d) / (r1 + r2) * 4) ∧
        0 < contactForce R r1 r2 d) ∧
    (∀ d e, 0 ≤ e → e < d → d < r1 + r2 →
      contactForce R r1 r2 d < contactForce R r1 r2 e) ∧
    (∀ d, r1 + r2 ≤ d → d < (r1 + r2) * 1.3 →
      contactForce R r1 r2 d =
        -0.8 * Real.sin ((d - (r1 + r2)) / ((r1 + r2) * 1.3 - (r1 + r2)) * Real.pi) ∧
        contactForce R r1 r2 d ≤ 0) ∧
    (∀ d, r1 + r2 < d → d < (r1 + r2) * 1.3 → contactForce R r1 r2 d < 0) ∧
    contactForce R r1 r2 (r1 + r2) = 0 ∧
    contactForce R r1 r2 ((r1 + r2) * 1.15) = -0.8 ∧
    (∀ d, r1 + r2 ≤ d → d < (r1 + r2) * 1.3 → -0.8 ≤ contactForce R r1 r2 d) ∧
    ∀ (i j : ℕ) (s1 s2 : OrbState), 0 < pairDist s1 s2 →
      pairDist s1 s2 < interactDist s1 s2 →
      ((contactApply R i j s1 s2).1.vx - s1.vx) * (cx s1 - cx s2) +
        ((contactApply R i j s1 s2).1.vy - s1.vy) * (cy s1 - cy s2) =
      contactForce R (s1.size / 2) (s2.size / 2) (pairDist s1 s2) * pairDist s1 s2 / s1.size := by
  have hsum : 0 < r1 + r2 := by linarith
  have hzone : 0 < (r1 + r2) * 1.3 - (r1 + r2) := by nlinarith
  refine ⟨?_, ?_, ?_, ?_, ?_, ?_, ?_, ?_⟩
  · intro d _ hd
    constructor
    · simp only [contactForce]
      rw [if_pos hd]
    · simp only [contactForce]
      rw [if_pos hd]
      exact mul_pos hR (Real.exp_pos _)
  · intro d e _ hed hd
    have he : e < r1 + r2 := lt_trans hed hd
    simp only [contactForce]
    rw [if_pos hd, if_pos he]
    apply mul_lt_mul_of_pos_left _ hR
    apply Real.exp_lt_exp.mpr
    apply mul_lt_mul_of_pos_right _ (by norm_num : (0 : ℝ) < 4)
    exact (div_lt_div_iff_of_pos_right hsum).mpr (by linarith)
  · intro d hd1 hd2
    have hnlt : ¬ d < r1 + r2 := not_lt.mpr hd1
    have ht0 : 0 ≤ (d - (r1 + r2)) / ((r1 + r2) * 1.3 - (r1 + r2)) :=
      div_nonneg (by linarith) hzone.le
    have ht1 : (d - (r1 + r2)) / ((r1 + r2) * 1.3 - (r1 + r2)) ≤ 1 :=
      (div_le_one hzone).mpr (by linarith)
    have hsin : 0 ≤ Real.sin ((d - (r1 + r2)) / ((r1 + r2) * 1.3 - (r1 + r2)) * Real.pi) := by
      apply Real.sin_nonneg_of_nonneg_of_le_pi
      · exact mul_nonneg ht0 Real.pi_pos.le
      · nlinarith [Real.pi_pos]
    constructor
    · simp only [contactForce]
      rw [if_neg hnlt]
    · simp only [contactForce]
      rw [if_neg hnlt]
      nlinarith
  · intro d hd1 hd2
    have hnlt : ¬ d < r1 + r2 := not_lt.mpr hd1.le
    have ht0 : 0 < (d - (r1 + r2)) / ((r1 + r2) * 1.3 - (r1 + r2)) :=
      div_pos (by linarith) hzone
    have ht1 : (d - (r1 + r2)) / ((r1 + r2) * 1.3 - (r1 + r2)) < 1 :=
      (div_lt_one hzone).mpr (by linarith)
    have hsin : 0 < Real.sin ((d - (r1 + r2)) / ((r1 + r2) * 1.3 - (r1 + r2)) * Real.pi) := by
      apply Real.sin_pos_of_pos_of_lt_pi
      · exact mul_pos ht0 Real.pi_pos
      · nlinarith [Real.pi_pos]
    simp only [contactForce]
    rw [if_neg hnlt]
    nlinarith
  · simp only [contactForce]
    rw [if_neg (lt_irrefl (r1 + r2))]
    rw [sub_self, zero_div, zero_mul, Real.sin_zero, mul_zero]
  · have hnlt : ¬ (r1 + r2) * 1.15 < r1 + r2 := by nlinarith
    simp only [contactForce]
    rw [if_neg hnlt]
    have harg : ((r1 + r2) * 1.15 - (r1 + r2)) / ((r1 + r2) * 1.3 - (r1 + r2)) * Real.pi =
        Real.pi / 2 := by
      rw [div_mul_eq_mul_div, div_eq_div_iff (by linarith) (by norm_num : (2 : ℝ) ≠ 0)]
      ring
    rw [harg, Real.sin_pi_div_two]
    norm_num
  · intro d hd1 hd2
    have hnlt : ¬ d < r1 + r2 := not_lt.mpr hd1
    simp only [contactForce]
    rw [if_neg hnlt]
    have := Real.sin_le_one ((d - (r1 + r2)) / ((r1 + r2) * 1.3 - (r1 + r2)) * Real.pi)
    nlinarith
  · intro i j s1 s2 hdd hQ
    have hne : pairDist s1 s2 ≠ 0 := ne_of_gt hdd
    have h0 : (0 : ℝ) ≤ distSqP s1 s2 := by
      unfold distSqP
      positivity
    have hsq : (cx s1 - cx s2) ^ 2 + (cy s1 - cy s2) ^ 2 = pairDist s1 s2 ^ 2 :=
      (Real.sq_sqrt h0).symm
    simp only [contactApply]
    rw [if_pos hQ]
    dsimp only
    have key : ∀ F SL : ℝ,
        (s1.vx + (cx s1 - cx s2) / pairDist s1 s2 * F / s1.size +
            -((cy s1 - cy s2) / pairDist s1 s2) * SL / s1.size - s1.vx) * (cx s1 - cx s2) +
          (s1.vy + (cy s1 - cy s2) / pairDist s1 s2 * F / s1.size +
            (cx s1 - cx s2) / pairDist s1 s2 * SL / s1.size - s1.vy) * (cy s1 - cy s2) =
        F * pairDist s1 s2 / s1.size := by
      intro F SL
      have step : (s1.vx + (cx s1 - cx s2) / pairDist s1 s2 * F / s1.size +
            -((cy s1 - cy s2) / pairDist s1 s2) * SL / s1.size - s1.vx) * (cx s1 - cx s2) +
          (s1.vy + (cy s1 - cy s2) / pairDist s1 s2 * F / s1.size +
            (cx s1 - cx s2) / pairDist s1 s2 * SL / s1.size - s1.vy) * (cy s1 - cy s2) =
          F / s1.size * (((cx s1 - cx s2) ^ 2 + (cy s1 - cy s2) ^ 2) / pairDist s1 s2) := by
        ring
      have hq : pairDist s1 s2 ^ 2 / pairDist s1 s2 = pairDist s1 s2 := by
        rw [sq, mul_div_assoc, div_self hne, mul_one]
      rw [step, hsq, hq]
      ring
    exact key _ _

/-- Witness for C5 at `R = 0.5`, `r1 = r2 = 100`. -/
theorem contact_force_profile_witness :
    (0 : ℝ) < 100 ∧ (0 : ℝ) < 0.5 ∧
      contactForce 0.5 100 100 ((100 + 100) * 1.15) = -0.8 := by
  refine ⟨by norm_num, by norm_num, ?_⟩
  exact (contact_force_profile 0.5 100 100 (by norm_num) (by norm_num)
    (by norm_num)).2.2.2.2.2.1

/-- C3 counterexample: with the default configuration
(`REPULSION_RADIUS_FACTOR = 0.5`), two size-200 particles whose centers are
150 px apart are NOT within the claimed interaction range
`(r1 + r2) × REPULSION_RADIUS_FACTOR = 100`, yet the code applies the
contact force to them (their velocities change), because the source guards
the contact zone with the hard-coded factor `1.3`, not the configured one. -/
theorem contact_zone_counterexample :
    pairDist sampleP1 sampleP2 < interactDist sampleP1 sampleP2 ∧
    ¬ pairDist sampleP1 sampleP2 <
        (sampleP1.size / 2 + sampleP2.size / 2) * DEFAULT_CONFIG.PHYSICS.REPULSION_RADIUS_FACTOR ∧
    (contactApply DEFAULT_CONFIG.PHYSICS.REPULSION_STRENGTH 0 1 sampleP1 sampleP2).1.vx ≠
      sampleP1.vx := by
  have hd150 : pairDist sampleP1 sampleP2 = 150 := by
    have : distSqP sampleP1 sampleP2 = 22500 := by
      norm_num [distSqP, cx, cy, sampleP1, sampleP2]
    rw [pairDist, this, show (22500 : ℝ) = 150 ^ 2 by norm_num,
      Real.sqrt_sq (by norm_num : (0 : ℝ) ≤ 150)]
  have hint : interactDist sampleP1 sampleP2 = 260 := by
    norm_num [interactDist, sampleP1, sampleP2]
  have hQ : pairDist sampleP1 sampleP2 < interactDist sampleP1 sampleP2 := by
    rw [hd150, hint]
    norm_num
  refine ⟨hQ, ?_, ?_⟩
  · rw [hd150]
    norm_num [sampleP1, sampleP2, DEFAULT_CONFIG]
  · simp only [contactApply]
    rw [if_pos hQ]
    dsimp only
    have hforce : contactForce DEFAULT_CONFIG.PHYSICS.REPULSION_STRENGTH
        (sampleP1.size / 2) (sampleP2.size / 2) (pairDist sampleP1 sampleP2) =
        0.5 * Real.exp 1 := by
      rw [hd150]
      simp only [contactForce, sampleP1, sampleP2, DEFAULT_CONFIG]
      norm_num
    rw [hforce, hd150]
    simp only [sampleP1, sampleP2, cx, cy]
    norm_num

/-- C3 (amended): the contact force is applied exactly when
`d < (r1 + r2) × 1.3`, where `1.3` is hard-coded in the source; the
configured `REPULSION_RADIUS_FACTOR` plays no role.  Outside that zone the
pair is returned unchanged; inside it both particles receive exactly the
radial contact force and the tangential slide, each divided by their own
mass. -/
theorem contact_zone_guard (R : ℝ) (i j : ℕ) (s1 s2 : OrbState) :
    interactDist s1 s2 = (s1.size / 2 + s2.size / 2) * 1.3 ∧
    (¬ pairDist s1 s2 < interactDist s1 s2 → contactApply R i j s1 s2 = (s1, s2)) ∧
    (pairDist s1 s2 < interactDist s1 s2 →
      contactApply R i j s1 s2 =
        ({ s1 with
            vx := s1.vx + (cx s1 - cx s2) / pairDist s1 s2 *
                contactForce R (s1.size / 2) (s2.size / 2) (pairDist s1 s2) / s1.size +
              -((cy s1 - cy s2) / pairDist s1 s2) *
                ((if (i + j) % 2 = 0 then (1 : ℝ) else -1) * 0.08 *
                  (1 - pairDist s1 s2 / interactDist s1 s2)) / s1.size
            vy := s1.vy + (cy s1 - cy s2) / pairDist s1 s2 *
                contactForce R (s1.size / 2) (s2.size / 2) (pairDist s1 s2) / s1.size +
              (cx s1 - cx s2) / pairDist s1 s2 *
                ((if (i + j) % 2 = 0 then (1 : ℝ) else -1) * 0.08 *
                  (1 - pairDist s1 s2 / interactDist s1 s2)) / s1.size },
          { s2 with
            vx := s2.vx - (cx s1 - cx s2) / pairDist s1 s2 *
                contactForce R (s1.size / 2) (s2.size / 2) (pairDist s1 s2) / s2.size -
              -((cy s1 - cy s2) / pairDist s1 s2) *
                ((if (i + j) % 2 = 0 then (1 : ℝ) else -1) * 0.08 *
                  (1 - pairDist s1 s2 / interactDist s1 s2)) / s2.size
            vy := s2.vy - (cy s1 - cy s2) / pairDist s1 s2 *
                contactForce R (s1.size / 2) (s2.size / 2) (pairDist s1 s2) / s2.size -
              (cx s1 - cx s2) / pairDist s1 s2 *
                ((if (i + j) % 2 = 0 then (1 : ℝ) else -1) * 0.08 *
                  (1 - pairDist s1 s2 / interactDist s1 s2)) / s2.size })) := by
  refine ⟨rfl, ?_, ?_⟩
  · intro h
    simp only [contactApply]
    rw [if_neg h]
  · intro h
    simp only [contactApply]
    rw [if_pos h]

/-- A third concrete particle, placed 1000 px to the right of `sampleP1`,
outside the hard-coded contact zone. -/
def sampleFar : OrbState := ⟨1000, 0, 0, 0, 200, 0⟩

/-- Witness for the amended C3: at the far pair the guard is false and the
pair is returned unchanged. -/
theorem contact_zone_guard_witness :
    ¬ pairDist sampleP1 sampleFar < interactDist sampleP1 sampleFar ∧
      contactApply 0.5 0 1 sampleP1 sampleFar = (sampleP1, sampleFar) := by
  have hth : pairDist sampleP1 sampleFar = 1000 := by
    have : distSqP sampleP1 sampleFar = 1000000 := by
      norm_num [distSqP, cx, cy, sampleP1, sampleFar]
    rw [pairDist, this, show (1000000 : ℝ) = 1000 ^ 2 by norm_num,
      Real.sqrt_sq (by norm_num : (0 : ℝ) ≤ 1000)]
  have hnot : ¬ pairDist sampleP1 sampleFar < interactDist sampleP1 sampleFar := by
    rw [hth]
    norm_num [interactDist, sampleP1, sampleFar]
  exact ⟨hnot, (contact_zone_guard 0.5 0 1 sampleP1 sampleFar).2.1 hnot⟩

/-- A missing (null) contrast handle at `i` is left untouched. -/
theorem applyTransforms_contrast_none (cfg : OrbConfig) (edge : Bool) (orbs : List OrbVisual)
    (sts : List OrbState) (c1 c2 : List (Option Elem)) (i : ℕ) (h : c1.get? i = some none) :
    ((applyTransforms cfg edge orbs sts c1 c2).1).get? i = some none := by
  unfold applyTransforms
  rw [mapWithIndex_get?, Nat.zero_add, h]
  cases hs : sts.get? i <;> simp

/-- A missing (null) color handle at `i` is left untouched. -/
theorem applyTransforms_color_none (cfg : OrbConfig) (edge : Bool) (orbs : List OrbVisual)
    (sts : List OrbState) (c1 c2 : List (Option Elem)) (i : ℕ) (h : c2.get? i = some none) :
    ((applyTransforms cfg edge orbs sts c1 c2).2).get? i = some none := by
  unfold applyTransforms
  rw [mapWithIndex_get?, Nat.zero_add, h]
  cases hs : sts.get? i <;> simp

/-- A present contrast handle whose index has a particle receives the
translate-and-scale transform of that particle. -/
theorem applyTransforms_contrast_some (cfg : OrbConfig) (edge : Bool) (orbs : List OrbVisual)
    (sts : List OrbState) (c1 c2 : List (Option Elem)) (i : ℕ) (e : Elem) (s : OrbState)
    (h : c1.get? i = some (some e)) (hs : sts.get? i = some s) :
    ((applyTransforms cfg edge orbs sts c1 c2).1).get? i =
      some (some ⟨some ⟨s.x, s.y,
        some (scaleFor cfg edge ((orbs.get? i).map OrbVisual.opacity))⟩⟩) := by
  unfold applyTransforms
  rw [mapWithIndex_get?, Nat.zero_add, h]
  rw [List.get?_eq_getElem?] at hs
  simp [hs]

/-- A present color handle whose index has a particle receives the plain
translate transform of that particle. -/
theorem applyTransforms_color_some (cfg : OrbConfig) (edge : Bool) (orbs : List OrbVisual)
    (sts : List OrbState) (c1 c2 : List (Option Elem)) (i : ℕ) (e : Elem) (s : OrbState)
    (h : c2.get? i = some (some e)) (hs : sts.get? i = some s) :
    ((applyTransforms cfg edge orbs sts c1 c2).2).get? i =
      some (some ⟨some ⟨s.x, s.y, none⟩⟩) := by
  unfold applyTransforms
  rw [mapWithIndex_get?, Nat.zero_add, h]
  rw [List.get?_eq_getElem?] at hs
  simp [hs]

/-- C8: a missing (null) rendering handle at index `i` in either array only
skips that layer's write at `i`: `update` is total, the same index of the
other array (when present, with a live particle) still receives its
transform write, and the simulation state advance is entirely independent
of the handle arrays. -/
theorem missing_handle_skip (sys : OrbSystem) (c1 c2 : List (Option Elem))
    (edge : Bool) (jit : ℕ → ℝ) (i : ℕ)
    (hw : sys.width ≠ 0) (hh : sys.height ≠ 0) (hi : i < sys.states.length) :
    (∀ d1 d2 : List (Option Elem),
      (update sys d1 d2 edge jit).1 = (update sys c1 c2 edge jit).1) ∧
    (c1.get? i = some none → (update sys c1 c2 edge jit).2.1.get? i = some none) ∧
    (c2.get? i = some none → (update sys c1 c2 edge jit).2.2.get? i = some none) ∧
    (∀ e : Elem, c1.get? i = some (some e) →
      ∃ s, (update sys c1 c2 edge jit).1.states.get? i = some s ∧
        (update sys c1 c2 edge jit).2.1.get? i =
          some (some ⟨some ⟨s.x, s.y,
            some (scaleFor sys.config edge ((sys.orbs.get? i).map OrbVisual.opacity))⟩⟩)) ∧
    (∀ e : Elem, c2.get? i = some (some e) →
      ∃ s, (update sys c1 c2 edge jit).1.states.get? i = some s ∧
        (update sys c1 c2 edge jit).2.2.get? i = some (some ⟨some ⟨s.x, s.y, none⟩⟩)) := by
  have hcond : ¬(sys.width = 0 ∨ sys.height = 0) := by
    push_neg
    exact ⟨hw, hh⟩
  have hupd2 : (update sys c1 c2 edge jit).2 =
      applyTransforms sys.config edge sys.orbs ((update sys c1 c2 edge jit).1.states) c1 c2 := by
    unfold update
    rw [if_neg hcond]
  have hlen : ((update sys c1 c2 edge jit).1.states).length = sys.states.length := by
    unfold update
    rw [if_neg hcond]
    dsimp only
    rw [mapWithIndex_length, pairPhase_length, ambientDrift_length]
  obtain ⟨s, hsi⟩ : ∃ s, ((update sys c1 c2 edge jit).1.states).get? i = some s := by
    cases hg : ((update sys c1 c2 edge jit).1.states).get? i with
    | none =>
      exfalso
      have := List.get?_eq_none.mp hg
      omega
    | some s => exact ⟨s, rfl⟩
  refine ⟨?_, ?_, ?_, ?_, ?_⟩
  · intro d1 d2
    unfold update
    rw [if_neg hcond, if_neg hcond]
  · intro h
    rw [show (update sys c1 c2 edge jit).2.1 =
        ((update sys c1 c2 edge jit).2).1 from rfl, hupd2]
    exact applyTransforms_contrast_none _ _ _ _ _ _ _ h
  · intro h
    rw [show (update sys c1 c2 edge jit).2.2 =
        ((update sys c1 c2 edge jit).2).2 from rfl, hupd2]
    exact applyTransforms_color_none _ _ _ _ _ _ _ h
  · intro e h
    refine ⟨s, hsi, ?_⟩
    rw [show (update sys c1 c2 edge jit).2.1 =
        ((update sys c1 c2 edge jit).2).1 from rfl, hupd2]
    exact applyTransforms_contrast_some _ _ _ _ _ _ _ e s h hsi
  · intro e h
    refine ⟨s, hsi, ?_⟩
    rw [show (update sys c1 c2 edge jit).2.2 =
        ((update sys c1 c2 edge jit).2).2 from rfl, hupd2]
    exact applyTransforms_color_some _ _ _ _ _ _ _ e s h hsi

/-- Witness for C8: Scenario D at a one-particle system — null contrast
handle, present color handle. -/
theorem missing_handle_skip_witness :
    sampleSys.width ≠ 0 ∧ (0 : ℕ) < sampleSys.states.length ∧
      ([(none : Option Elem)].get? 0 = some none →
        (update sampleSys [none] [some ⟨none⟩] false fun _ => 0).2.1.get? 0 = some none) ∧
      (∀ e : Elem, [some (⟨none⟩ : Elem)].get? 0 = some (some e) →
        ∃ s, (update sampleSys [none] [some ⟨none⟩] false fun _ => 0).1.states.get? 0 = some s ∧
          (update sampleSys [none] [some ⟨none⟩] false fun _ => 0).2.2.get? 0 =
            some (some ⟨some ⟨s.x, s.y, none⟩⟩)) := by
  have h := missing_handle_skip sampleSys [none] [some ⟨none⟩] false (fun _ => 0) 0
    (by norm_num [sampleSys]) (by norm_num [sampleSys]) (by norm_num [sampleSys])
  exact ⟨by norm_num [sampleSys], by norm_num [sampleSys], h.2.1, h.2.2.2.2⟩

/-- `sys` with only `PHYSICS.GRAVITY_STRENGTH` replaced. -/
def withGravityStrength (sys : OrbSystem) (g : ℝ) : OrbSystem :=
  { sys with config := { sys.config with
      PHYSICS := { sys.config.PHYSICS with GRAVITY_STRENGTH := g } } }

/-- `sys` with only `PHYSICS.REPULSION_STRENGTH` replaced. -/
def withRepulsionStrength (sys : OrbSystem) (r : ℝ) : OrbSystem :=
  { sys with config := { sys.config with
      PHYSICS := { sys.config.PHYSICS with REPULSION_STRENGTH := r } } }

theorem wanderApply_congr (cfgA cfgB : OrbConfig)
    (hJ : cfgA.PHYSICS.WANDER_JITTER = cfgB.PHYSICS.WANDER_JITTER)
    (hA : cfgA.PHYSICS.ACCELERATION = cfgB.PHYSICS.ACCELERATION) :
    wanderApply cfgA = wanderApply cfgB := by
  funext jit s
  unfold wanderApply
  rw [hJ, hA]

theorem frictionClampApply_congr (cfgA cfgB : OrbConfig)
    (hF : cfgA.PHYSICS.FRICTION = cfgB.PHYSICS.FRICTION)
    (hM : cfgA.PHYSICS.MAX_VELOCITY = cfgB.PHYSICS.MAX_VELOCITY) :
    frictionClampApply cfgA = frictionClampApply cfgB := by
  funext s
  unfold frictionClampApply
  rw [hF, hM]

theorem stepParticle_congr (cfgA cfgB : OrbConfig)
    (hJ : cfgA.PHYSICS.WANDER_JITTER = cfgB.PHYSICS.WANDER_JITTER)
    (hA : cfgA.PHYSICS.ACCELERATION = cfgB.PHYSICS.ACCELERATION)
    (hF : cfgA.PHYSICS.FRICTION = cfgB.PHYSICS.FRICTION)
    (hM : cfgA.PHYSICS.MAX_VELOCITY = cfgB.PHYSICS.MAX_VELOCITY) :
    stepParticle cfgA = stepParticle cfgB := by
  funext w h jit s
  unfold stepParticle
  rw [wanderApply_congr cfgA cfgB hJ hA, frictionClampApply_congr cfgA cfgB hF hM]

theorem applyTransforms_congr (cfgA cfgB : OrbConfig)
    (hO : cfgA.OPACITY = cfgB.OPACITY) :
    applyTransforms cfgA = applyTransforms cfgB := by
  have hsf : scaleFor cfgA = scaleFor cfgB := by
    funext edge opac
    unfold scaleFor
    rw [hO]
  funext edge orbs sts c1 c2
  unfold applyTransforms
  rw [hsf]

/-- `update` reads the configuration only through the effective (falsy-guarded)
strengths, the four per-particle physics scalars and the opacity range. -/
theorem update_config_congr (sysA sysB : OrbSystem) (c1 c2 : List (Option Elem))
    (edge : Bool) (jit : ℕ → ℝ)
    (hw : sysA.width = sysB.width) (hh : sysA.height = sysB.height)
    (hs : sysA.states = sysB.states) (ho : sysA.orbs = sysB.orbs)
    (ht : sysA.time = sysB.time)
    (hG : orFalsy sysA.config.PHYSICS.GRAVITY_STRENGTH 0.05 =
      orFalsy sysB.config.PHYSICS.GRAVITY_STRENGTH 0.05)
    (hR : orFalsy sysA.config.PHYSICS.REPULSION_STRENGTH 0.5 =
      orFalsy sysB.config.PHYSICS.REPULSION_STRENGTH 0.5)
    (hJ : sysA.config.PHYSICS.WANDER_JITTER = sysB.config.PHYSICS.WANDER_JITTER)
    (hA : sysA.config.PHYSICS.ACCELERATION = sysB.config.PHYSICS.ACCELERATION)
    (hF : sysA.config.PHYSICS.FRICTION = sysB.config.PHYSICS.FRICTION)
    (hM : sysA.config.PHYSICS.MAX_VELOCITY = sysB.config.PHYSICS.MAX_VELOCITY)
    (hO : sysA.config.OPACITY = sysB.config.OPACITY) :
    (update sysA c1 c2 edge jit).1.states = (update sysB c1 c2 edge jit).1.states ∧
    (update sysA c1 c2 edge jit).2 = (update sysB c1 c2 edge jit).2 := by
  unfold update
  by_cases hc : sysA.width = 0 ∨ sysA.height = 0
  · have hc2 : sysB.width = 0 ∨ sysB.height = 0 := by
      rw [← hw, ← hh]
      exact hc
    rw [if_pos hc, if_pos hc2]
    exact ⟨hs, rfl⟩
  · have hc2 : ¬ (sysB.width = 0 ∨ sysB.height = 0) := by
      rw [← hw, ← hh]
      exact hc
    rw [if_neg hc, if_neg hc2]
    dsimp only
    rw [hw, hh, hs, ho, ht, hG, hR,
      stepParticle_congr sysA.config sysB.config hJ hA hF hM,
      applyTransforms_congr sysA.config sysB.config hO]
    exact ⟨rfl, rfl⟩

/-- C10: a zero (falsy) configured `GRAVITY_STRENGTH` or
`REPULSION_STRENGTH` does not disable the force: the `||`-fallback replaces
it by `0.05` (gravity) or `0.5` (repulsion), so `update` under a
zero-configured strength produces exactly the states and handle writes of
the fallback-strength simulation. -/
theorem falsy_strength_fallback (sys : OrbSystem) (c1 c2 : List (Option Elem))
    (edge : Bool) (jit : ℕ → ℝ) :
    orFalsy 0 0.05 = (0.05 : ℝ) ∧ orFalsy 0 0.5 = (0.5 : ℝ) ∧
    (sys.config.PHYSICS.GRAVITY_STRENGTH = 0 →
      (update sys c1 c2 edge jit).1.states =
        (update (withGravityStrength sys 0.05) c1 c2 edge jit).1.states ∧
      (update sys c1 c2 edge jit).2 =
        (update (withGravityStrength sys 0.05) c1 c2 edge jit).2) ∧
    (sys.config.PHYSICS.REPULSION_STRENGTH = 0 →
      (update sys c1 c2 edge jit).1.states =
        (update (withRepulsionStrength sys 0.5) c1 c2 edge jit).1.states ∧
      (update sys c1 c2 edge jit).2 =
        (update (withRepulsionStrength sys 0.5) c1 c2 edge jit).2) := by
  refine ⟨by unfold orFalsy; norm_num, by unfold orFalsy; norm_num, ?_, ?_⟩
  · intro hG
    apply update_config_congr sys (withGravityStrength sys 0.05) c1 c2 edge jit
      rfl rfl rfl rfl rfl ?_ rfl rfl rfl rfl rfl rfl
    rw [hG]
    show orFalsy 0 0.05 = orFalsy 0.05 0.05
    unfold orFalsy
    norm_num
  · intro hR
    apply update_config_congr sys (withRepulsionStrength sys 0.5) c1 c2 edge jit
      rfl rfl rfl rfl rfl rfl ?_ rfl rfl rfl rfl rfl
    rw [hR]
    show orFalsy 0 0.5 = orFalsy 0.5 0.5
    unfold orFalsy
    norm_num

/-- `sampleSys` with `GRAVITY_STRENGTH` configured to zero. -/
def zeroGravSys : OrbSystem := withGravityStrength sampleSys 0

/-- Witness for C10: at a concrete zero-gravity-configured system, the
states after `update` coincide with those of the `0.05`-gravity system. -/
theorem falsy_strength_fallback_witness :
    zeroGravSys.config.PHYSICS.GRAVITY_STRENGTH = 0 ∧
      (update zeroGravSys [] [] true fun _ => 0).1.states =
        (update (withGravityStrength zeroGravSys 0.05) [] [] true fun _ => 0).1.states :=
  ⟨rfl, ((falsy_strength_fallback zeroGravSys [] [] true fun _ => 0).2.2.1 rfl).1⟩

end

end OrbPhysics
